import Mathlib

/-!
Verification of the DeepSpeed rolling-batch adapter
(engines/python/setup/djl_python/rolling_batch/deepspeed_rolling_batch.py).

The adapter converts per-request serving parameters into the engine-native
request/batch types, runs prefill/decode cycles against the external engine,
and maps returned Generation fragments back onto the active requests.
Engine calls, the base-class request bookkeeping and the exception-catching
decorator are external collaborators; they are embedded as explicit
parameters or, where only the spec describes them, as definitions marked
accordingly.
-/

namespace DSRB

/-- Python int() applied to a rational number: truncation toward zero,
as performed by the source on the seed parameter. -/
def pyInt (q : Rat) : Int := if 0 ≤ q then q.floor else q.ceil

/-- The parameter mapping of an incoming request (the Python dict
r.parameters). Each field is none when the key is absent from the mapping
or mapped to None, mirroring dict.get with a default. -/
structure ParamMap where
  temperature : Option Rat := none
  repetition_penalty : Option Rat := none
  top_k : Option Int := none
  top_p : Option Rat := none
  typical_p : Option Rat := none
  do_sample : Option Bool := none
  seed : Option Rat := none
  stop_sequences : Option (List String) := none
  max_new_tokens : Option Nat := none
  truncate : Option Nat := none
deriving DecidableEq

/-- Engine-native sampling parameters (NextTokenChooserParameters),
a plain data holder. -/
structure NextTokenChooserParameters where
  temperature : Rat
  repetition_penalty : Rat
  top_k : Int
  top_p : Rat
  typical_p : Rat
  do_sample : Bool
  seed : Int
deriving DecidableEq

/-- Engine-native stopping parameters (StoppingCriteriaParameters),
a plain data holder. -/
structure StoppingCriteriaParameters where
  stop_sequences : List String
  max_new_tokens : Nat
deriving DecidableEq

/-- A newly arrived serving request as handed to preprocess_requests:
id, input text and the raw parameter mapping. -/
structure IncomingRequest where
  id : Nat
  input_text : String
  parameters : ParamMap
deriving DecidableEq

/-- Engine-native request (Request). The truncate field is none unless the
adapter explicitly sets the attribute. -/
structure Request where
  id : Nat
  inputs : String
  parameters : NextTokenChooserParameters
  stopping_parameters : StoppingCriteriaParameters
  truncate : Option Nat := none
deriving DecidableEq

/-- Engine-native batch (Batch): batch id, request list and declared size. -/
structure Batch where
  id : Nat
  requests : List Request
  size : Nat
deriving DecidableEq

/-- Engine-produced per-token result (Generation), keyed by request id;
a non-null generated_text marks the final token of the request. -/
structure Generation where
  request_id : Nat
  token_text : String
  token_is_special : Bool
  generated_text : Option String
deriving DecidableEq

/-- An in-flight request owned by the base abstraction. tokens is the output
stream, recording every set_next_token call as a pair of the token text and
the last_token flag; errored is the terminal error state flag. -/
structure ActiveRequest where
  id : Nat
  tokens : List (String × Bool) := []
  errored : Bool := false
deriving DecidableEq

/-- The mutable state of the adapter visible to the embedded operations:
the batch id counter it owns, and the active-request collection and
error_requests field it reads/writes through the base abstraction. -/
structure AdapterState where
  batch_id_counter : Nat
  active_requests : List ActiveRequest
  error_requests : List Nat
deriving DecidableEq

/-- Modelled from the spec: set_next_token on a request of the base
abstraction (djl_python.rolling_batch.rolling_batch, not in the snapshot)
appends the token text and last_token flag to the output stream of the
request. The output formatter argument only affects encoding and is not
modelled. -/
def set_next_token (request : ActiveRequest) (text : String)
    (last_token : Bool) : ActiveRequest :=
  { request with tokens := request.tokens ++ [(text, last_token)] }

/-- The per-request body of the loop in _prefill_and_decode: filter the
cycle generations by request id, take the first match if any, and append
the corresponding next token to the request. -/
def processRequest (generations : List Generation)
    (request : ActiveRequest) : ActiveRequest :=
  let filtered_gens := generations.filter fun g => g.request_id == request.id
  match filtered_gens.head? with
  | some generation =>
      let is_last_token := generation.generated_text.isSome
      set_next_token request
        (if generation.token_is_special then "" else generation.token_text)
        is_last_token
  | none => set_next_token request "" false

/-- Embeds _prefill_and_decode. The external engine operations prefill_batch
and generate_token are parameters; they may raise, hence return Except. On
the prefill path the error_requests field is overwritten with the failed ids
returned by the engine; on the decode path it is left untouched. Every
active request is then processed once, in collection order. -/
def prefill_and_decode
    (prefill_batch : Batch → Except String (List Generation × List Nat))
    (generate_token : Unit → Except String (List Generation))
    (st : AdapterState) (new_batch : Option Batch) :
    Except String AdapterState :=
  match new_batch with
  | some batch => do
      let (generations, error_requests) ← prefill_batch batch
      pure { st with
              error_requests := error_requests,
              active_requests :=
                st.active_requests.map (processRequest generations) }
  | none => do
      let generations ← generate_token ()
      pure { st with
              active_requests :=
                st.active_requests.map (processRequest generations) }

/-- The per-request body of the loop in preprocess_requests: build the
sampling parameters and stopping parameters from the parameter mapping with
the documented defaults, then the engine-native request, attaching the
truncate attribute only when the truncate parameter is not None. -/
def preprocessRequest (r : IncomingRequest) : Request :=
  let param := r.parameters
  let parameters : NextTokenChooserParameters :=
    { temperature := param.temperature.getD 1
      repetition_penalty := param.repetition_penalty.getD 1
      top_k := param.top_k.getD 0
      top_p := param.top_p.getD 1
      typical_p := param.typical_p.getD 1
      do_sample := param.do_sample.getD false
      seed := pyInt (param.seed.getD 0) }
  let stop_parameters : StoppingCriteriaParameters :=
    { stop_sequences := param.stop_sequences.getD []
      max_new_tokens := param.max_new_tokens.getD 30 }
  let request : Request :=
    { id := r.id
      inputs := r.input_text
      parameters := parameters
      stopping_parameters := stop_parameters }
  match param.truncate with
  | some truncate => { request with truncate := some truncate }
  | none => request

/-- Embeds preprocess_requests: map every incoming request to an
engine-native request; if the resulting list is non-empty wrap it in a Batch
tagged with the current counter and increment the counter, otherwise return
none and leave the state unchanged. -/
def preprocess_requests (st : AdapterState)
    (requests : List IncomingRequest) : Option Batch × AdapterState :=
  let preprocessed_requests := requests.map preprocessRequest
  if preprocessed_requests.isEmpty then
    (none, st)
  else
    (some { id := st.batch_id_counter
            requests := preprocessed_requests
            size := preprocessed_requests.length },
     { st with batch_id_counter := st.batch_id_counter + 1 })

/-- Embeds reset: the engine-internal rolling batch is cleared (opaque,
not modelled), the batch id counter is set to zero, and the base-class
reset is performed, which per the spec clears the active-request
bookkeeping. -/
def reset (st : AdapterState) : AdapterState :=
  { st with batch_id_counter := 0, active_requests := [] }

/-- Modelled from the spec: the stop_on_any_exception decorator of the base
abstraction (djl_python.rolling_batch.rolling_batch, not in the snapshot).
Any exception raised by the wrapped inference body is intercepted and
converted into a terminal error state applied to every currently active
request; the wrapped call always returns normally (the embedding is a total
function, so the exception cannot propagate). -/
def stop_on_any_exception
    (body : AdapterState → Except String AdapterState)
    (st : AdapterState) : AdapterState :=
  match body st with
  | .ok st2 => st2
  | .error _ =>
      { st with active_requests :=
          st.active_requests.map fun r => { r with errored := true } }

/-- Embeds the body of inference before the decorator is applied:
get_new_requests is delegated to the base abstraction, so its result is the
new_requests parameter; the new requests are preprocessed, and the combined
prefill-and-decode step runs when a new batch exists or active requests
remain. postprocess_results is delegated and only reads the request
streams, so the body returns the updated state. -/
def inference_body
    (prefill_batch : Batch → Except String (List Generation × List Nat))
    (generate_token : Unit → Except String (List Generation))
    (new_requests : List IncomingRequest)
    (st : AdapterState) : Except String AdapterState :=
  let (new_batch, st2) := preprocess_requests st new_requests
  if new_batch.isSome ∨ 0 < st2.active_requests.length then
    prefill_and_decode prefill_batch generate_token st2 new_batch
  else
    pure st2

/-- Embeds inference: the inference body wrapped by the
stop_on_any_exception decorator. -/
def inference
    (prefill_batch : Batch → Except String (List Generation × List Nat))
    (generate_token : Unit → Except String (List Generation))
    (new_requests : List IncomingRequest)
    (st : AdapterState) : AdapterState :=
  stop_on_any_exception
    (inference_body prefill_batch generate_token new_requests) st

/-- Iterated decode-only cycles of _prefill_and_decode (no new batch). -/
def decodeCycles
    (prefill_batch : Batch → Except String (List Generation × List Nat))
    (generate_token : Unit → Except String (List Generation))
    (st : AdapterState) : Nat → Except String AdapterState
  | 0 => .ok st
  | n + 1 => do
      let st2 ← prefill_and_decode prefill_batch generate_token st none
      decodeCycles prefill_batch generate_token st2 n

theorem pyInt_zero : pyInt 0 = 0 := by decide

theorem preprocessRequest_spec (r : IncomingRequest) :
    preprocessRequest r =
      { id := r.id
        inputs := r.input_text
        parameters :=
          { temperature := r.parameters.temperature.getD 1
            repetition_penalty := r.parameters.repetition_penalty.getD 1
            top_k := r.parameters.top_k.getD 0
            top_p := r.parameters.top_p.getD 1
            typical_p := r.parameters.typical_p.getD 1
            do_sample := r.parameters.do_sample.getD false
            seed := pyInt (r.parameters.seed.getD 0) }
        stopping_parameters :=
          { stop_sequences := r.parameters.stop_sequences.getD []
            max_new_tokens := r.parameters.max_new_tokens.getD 30 }
        truncate := r.parameters.truncate } := by
  unfold preprocessRequest
  cases h : r.parameters.truncate <;> simp [h]

theorem processRequest_id (generations : List Generation)
    (r : ActiveRequest) : (processRequest generations r).id = r.id := by
  unfold processRequest
  cases h : (generations.filter fun g => g.request_id == r.id).head? <;>
    simp [h, set_next_token]

theorem processRequest_tokens (generations : List Generation)
    (r : ActiveRequest) :
    ∃ t l, (processRequest generations r).tokens = r.tokens ++ [(t, l)] := by
  unfold processRequest
  cases h : (generations.filter fun g => g.request_id == r.id).head? <;>
    simp [h, set_next_token]

/-- C1: for every incoming request, each sampling-parameter key absent from
the parameter mapping takes its documented default (temperature=1.0,
repetition_penalty=1.0, top_k=0, top_p=1.0, typical_p=1.0, do_sample=false,
seed=0 coerced to an integer), each present key overrides its default (the
seed value itself being coerced to an integer), and a request lacking all
keys yields exactly the default parameter record. -/
theorem default_sampling_parameters (r : IncomingRequest) :
    (r.parameters.temperature = none →
      (preprocessRequest r).parameters.temperature = 1) ∧
    (∀ v, r.parameters.temperature = some v →
      (preprocessRequest r).parameters.temperature = v) ∧
    (r.parameters.repetition_penalty = none →
      (preprocessRequest r).parameters.repetition_penalty = 1) ∧
    (∀ v, r.parameters.repetition_penalty = some v →
      (preprocessRequest r).parameters.repetition_penalty = v) ∧
    (r.parameters.top_k = none →
      (preprocessRequest r).parameters.top_k = 0) ∧
    (∀ v, r.parameters.top_k = some v →
      (preprocessRequest r).parameters.top_k = v) ∧
    (r.parameters.top_p = none →
      (preprocessRequest r).parameters.top_p = 1) ∧
    (∀ v, r.parameters.top_p = some v →
      (preprocessRequest r).parameters.top_p = v) ∧
    (r.parameters.typical_p = none →
      (preprocessRequest r).parameters.typical_p = 1) ∧
    (∀ v, r.parameters.typical_p = some v →
      (preprocessRequest r).parameters.typical_p = v) ∧
    (r.parameters.do_sample = none →
      (preprocessRequest r).parameters.do_sample = false) ∧
    (∀ v, r.parameters.do_sample = some v →
      (preprocessRequest r).parameters.do_sample = v) ∧
    (r.parameters.seed = none →
      (preprocessRequest r).parameters.seed = 0) ∧
    (∀ v, r.parameters.seed = some v →
      (preprocessRequest r).parameters.seed = pyInt v) ∧
    (r.parameters.temperature = none → r.parameters.repetition_penalty = none →
      r.parameters.top_k = none → r.parameters.top_p = none →
      r.parameters.typical_p = none → r.parameters.do_sample = none →
      r.parameters.seed = none →
      (preprocessRequest r).parameters =
        { temperature := 1, repetition_penalty := 1, top_k := 0, top_p := 1,
          typical_p := 1, do_sample := false, seed := 0 }) := by
  rw [preprocessRequest_spec]
  refine ⟨?_, ?_, ?_, ?_, ?_, ?_, ?_, ?_, ?_, ?_, ?_, ?_, ?_, ?_, ?_⟩ <;>
    first
    | (intro h1 h2 h3 h4 h5 h6 h7;
       simp [h1, h2, h3, h4, h5, h6, h7, pyInt_zero])
    | (intro h; simp [h, pyInt_zero])
    | (intro v h; simp [h])

/-- Witness for C1 at a concrete request with an empty parameter mapping. -/
theorem default_sampling_parameters_witness :
    (preprocessRequest { id := 7, input_text := "hi", parameters := {} }).parameters =
      { temperature := 1, repetition_penalty := 1, top_k := 0, top_p := 1,
        typical_p := 1, do_sample := false, seed := 0 } :=
  (default_sampling_parameters
      { id := 7, input_text := "hi", parameters := {} }).2.2.2.2.2.2.2.2.2.2.2.2.2.2
    rfl rfl rfl rfl rfl rfl rfl

theorem preprocess_requests_nonempty (st : AdapterState)
    (requests : List IncomingRequest) (h : requests ≠ []) :
    preprocess_requests st requests =
      (some { id := st.batch_id_counter
              requests := requests.map preprocessRequest
              size := (requests.map preprocessRequest).length },
       { st with batch_id_counter := st.batch_id_counter + 1 }) := by
  unfold preprocess_requests
  simp [List.isEmpty_iff, h]

/-- C3: preprocess_requests applied to the empty request list returns the
no-batch signal none and leaves the state unchanged, and whenever it does
return a batch, that batch holds at least one request and has positive
declared size, so a zero-size batch object is never constructed. -/
theorem empty_requests_no_batch :
    (∀ st : AdapterState, preprocess_requests st [] = (none, st)) ∧
    (∀ (st st2 : AdapterState) (requests : List IncomingRequest) (b : Batch),
      preprocess_requests st requests = (some b, st2) →
      b.requests ≠ [] ∧ 0 < b.size) := by
  constructor
  · intro st; rfl
  · intro st st2 requests b h
    cases requests with
    | nil => simp [preprocess_requests] at h
    | cons r rs =>
      rw [preprocess_requests_nonempty st (r :: rs) (by simp)] at h
      injection h with h1 h2
      injection h1 with h1
      subst h1
      simp

/-- Witness for C3 at a concrete singleton request list. -/
theorem empty_requests_no_batch_witness :
    ({ id := 0
       requests :=
         [preprocessRequest { id := 7, input_text := "hi", parameters := {} }]
       size := 1 } : Batch).requests ≠ [] ∧
    0 < ({ id := 0
           requests :=
             [preprocessRequest { id := 7, input_text := "hi", parameters := {} }]
           size := 1 } : Batch).size :=
  empty_requests_no_batch.2
    { batch_id_counter := 0, active_requests := [], error_requests := [] }
    { batch_id_counter := 1, active_requests := [], error_requests := [] }
    [{ id := 7, input_text := "hi", parameters := {} }] _ rfl

/-- C4: every preprocess_requests call with a non-empty request list yields
a batch whose id equals the current counter value and increments the
counter by exactly one, hence the batch ids of two consecutive non-empty
calls differ by exactly one; a call with the empty list leaves the state
(in particular the counter) unchanged; and reset restores the counter
to zero. -/
theorem batch_id_counter_monotone :
    (∀ (st : AdapterState) (requests : List IncomingRequest),
      requests ≠ [] →
      ∃ b, (preprocess_requests st requests).1 = some b ∧
        b.id = st.batch_id_counter ∧
        (preprocess_requests st requests).2.batch_id_counter =
          st.batch_id_counter + 1) ∧
    (∀ st : AdapterState, preprocess_requests st [] = (none, st)) ∧
    (∀ (st : AdapterState) (r1 r2 : List IncomingRequest) (b1 b2 : Batch),
      r1 ≠ [] → r2 ≠ [] →
      (preprocess_requests st r1).1 = some b1 →
      (preprocess_requests (preprocess_requests st r1).2 r2).1 = some b2 →
      b2.id = b1.id + 1) ∧
    (∀ st : AdapterState, (reset st).batch_id_counter = 0) := by
  refine ⟨?_, fun st => rfl, ?_, fun st => rfl⟩
  · intro st requests h
    rw [preprocess_requests_nonempty st requests h]
    exact ⟨_, rfl, rfl, rfl⟩
  · intro st r1 r2 b1 b2 h1 h2 hb1 hb2
    rw [preprocess_requests_nonempty st r1 h1] at hb1 hb2
    rw [preprocess_requests_nonempty _ r2 h2] at hb2
    injection hb1 with hb1
    injection hb2 with hb2
    subst hb1
    subst hb2
    rfl

/-- Witness for C4 at a concrete state with counter 5 and a singleton
request list. -/
theorem batch_id_counter_monotone_witness :
    ∃ b, (preprocess_requests
        { batch_id_counter := 5, active_requests := [], error_requests := [] }
        [{ id := 7, input_text := "hi", parameters := {} }]).1 = some b ∧
      b.id = 5 ∧
      (preprocess_requests
        { batch_id_counter := 5, active_requests := [], error_requests := [] }
        [{ id := 7, input_text := "hi", parameters := {} }]).2.batch_id_counter =
        5 + 1 :=
  batch_id_counter_monotone.1
    { batch_id_counter := 5, active_requests := [], error_requests := [] }
    [{ id := 7, input_text := "hi", parameters := {} }] (by simp)

/-- C5: when the cycle generations contain no entry whose request id
matches the active request, _prefill_and_decode appends to that request
exactly one empty token with last_token explicitly false, so the request
is not marked finished that cycle. -/
theorem no_match_empty_token (generations : List Generation)
    (request : ActiveRequest)
    (h : ∀ g ∈ generations, g.request_id ≠ request.id) :
    processRequest generations request = set_next_token request "" false ∧
    (processRequest generations request).tokens =
      request.tokens ++ [("", false)] := by
  have hf : generations.filter (fun g => g.request_id == request.id) = [] :=
    List.filter_eq_nil_iff.mpr fun g hg => by simpa using h g hg
  refine ⟨?_, ?_⟩ <;> (unfold processRequest; rw [hf]) <;>
    simp [set_next_token]

/-- Witness for C5: a generation list whose single entry carries a
different request id. -/
theorem no_match_empty_token_witness :
    (processRequest
      [{ request_id := 5, token_text := "x", token_is_special := false,
         generated_text := none }]
      { id := 3 }).tokens = [("", false)] :=
  (no_match_empty_token
    [{ request_id := 5, token_text := "x", token_is_special := false,
       generated_text := none }]
    { id := 3 } (by decide)).2

/-- C6: when the first cycle generation matching the request id is g, the
token appended to the request stream has empty text when g is flagged as a
special token (whatever its token_text) and the token_text of g otherwise,
and its last_token flag is set exactly when generated_text of g is
non-null, so the request is marked as having produced its final token
precisely in that case. -/
theorem match_token_from_generation (generations : List Generation)
    (request : ActiveRequest) (g : Generation) (rest : List Generation)
    (h : generations.filter (fun x => x.request_id == request.id) =
      g :: rest) :
    processRequest generations request =
      set_next_token request
        (if g.token_is_special then "" else g.token_text)
        g.generated_text.isSome ∧
    (processRequest generations request).tokens =
      request.tokens ++
        [(if g.token_is_special then "" else g.token_text,
          g.generated_text.isSome)] ∧
    ((processRequest generations request).tokens.getLast?.map Prod.snd =
        some true ↔ g.generated_text ≠ none) := by
  refine ⟨?_, ?_, ?_⟩ <;> (unfold processRequest; rw [h]) <;>
    simp [set_next_token, Option.isSome_iff_ne_none]

/-- Witness for C6: a special, terminal generation matching the request;
the appended token is empty despite a non-empty token_text, and the
request is marked finished. -/
theorem match_token_from_generation_witness :
    (processRequest
      [{ request_id := 3, token_text := "SPECIAL", token_is_special := true,
         generated_text := some "done" }]
      { id := 3 }).tokens = [("", true)] :=
  (match_token_from_generation
    [{ request_id := 3, token_text := "SPECIAL", token_is_special := true,
       generated_text := some "done" }]
    { id := 3 }
    { request_id := 3, token_text := "SPECIAL", token_is_special := true,
      generated_text := some "done" } [] rfl).2.1

/-- C7: when the generation list splits as l1 ++ g :: l2 with no entry of
l1 matching the request id, g matching it, and at least one further
matching entry in l2 (so more than one Generation matches), the token
appended to the request comes from g, the first matching entry in list
order. -/
theorem first_match_wins (l1 l2 : List Generation) (g : Generation)
    (request : ActiveRequest)
    (h1 : ∀ g2 ∈ l1, g2.request_id ≠ request.id)
    (h2 : g.request_id = request.id)
    (_h3 : ∃ g3 ∈ l2, g3.request_id = request.id) :
    processRequest (l1 ++ g :: l2) request =
      set_next_token request
        (if g.token_is_special then "" else g.token_text)
        g.generated_text.isSome := by
  have hf1 : l1.filter (fun x => x.request_id == request.id) = [] :=
    List.filter_eq_nil_iff.mpr fun x hx => by simpa using h1 x hx
  have hf : (l1 ++ g :: l2).filter (fun x => x.request_id == request.id) =
      g :: l2.filter (fun x => x.request_id == request.id) := by
    rw [List.filter_append, hf1, List.filter_cons]
    simp [h2]
  unfold processRequest
  rw [hf]
  rfl

/-- Witness for C7: two generations carry the matching id; the appended
token comes from the first one. -/
theorem first_match_wins_witness :
    processRequest
      [{ request_id := 9, token_text := "other", token_is_special := false,
         generated_text := none },
       { request_id := 3, token_text := "first", token_is_special := false,
         generated_text := none },
       { request_id := 3, token_text := "second", token_is_special := false,
         generated_text := some "full" }]
      { id := 3 } =
    set_next_token { id := 3 } "first" false :=
  first_match_wins
    [{ request_id := 9, token_text := "other", token_is_special := false,
       generated_text := none }]
    [{ request_id := 3, token_text := "second", token_is_special := false,
       generated_text := some "full" }]
    { request_id := 3, token_text := "first", token_is_special := false,
      generated_text := none }
    { id := 3 } (by decide) rfl
    ⟨{ request_id := 3, token_text := "second", token_is_special := false,
       generated_text := some "full" }, by simp⟩

/-- C8: preprocess_requests builds for every incoming request a native
request carrying the original id, the input text and the two constructed
parameter objects, and its truncate attribute equals the truncate entry of
the parameter mapping: it is set to a length v exactly when the mapping
holds a non-null truncate v, and left unset when truncate is absent or
null. -/
theorem native_request_carries_fields (r : IncomingRequest) :
    (preprocessRequest r).id = r.id ∧
    (preprocessRequest r).inputs = r.input_text ∧
    (preprocessRequest r).parameters =
      { temperature := r.parameters.temperature.getD 1
        repetition_penalty := r.parameters.repetition_penalty.getD 1
        top_k := r.parameters.top_k.getD 0
        top_p := r.parameters.top_p.getD 1
        typical_p := r.parameters.typical_p.getD 1
        do_sample := r.parameters.do_sample.getD false
        seed := pyInt (r.parameters.seed.getD 0) } ∧
    (preprocessRequest r).stopping_parameters =
      { stop_sequences := r.parameters.stop_sequences.getD []
        max_new_tokens := r.parameters.max_new_tokens.getD 30 } ∧
    (preprocessRequest r).truncate = r.parameters.truncate := by
  rw [preprocessRequest_spec]
  exact ⟨rfl, rfl, rfl, rfl, rfl⟩

theorem prefill_and_decode_none_ok
    (prefill_batch : Batch → Except String (List Generation × List Nat))
    (generate_token : Unit → Except String (List Generation))
    (st st2 : AdapterState)
    (h : prefill_and_decode prefill_batch generate_token st none = .ok st2) :
    ∃ generations, generate_token () = .ok generations ∧
      st2 = { st with active_requests :=
        st.active_requests.map (processRequest generations) } := by
  unfold prefill_and_decode at h
  cases hg : generate_token () with
  | error e => rw [hg] at h; exact absurd h (by simp [Bind.bind, Except.bind])
  | ok generations =>
    rw [hg] at h
    simp only [Bind.bind, Except.bind, pure, Except.pure, Except.ok.injEq] at h
    exact ⟨generations, rfl, h.symm⟩

theorem prefill_and_decode_some_ok
    (prefill_batch : Batch → Except String (List Generation × List Nat))
    (generate_token : Unit → Except String (List Generation))
    (st st2 : AdapterState) (batch : Batch)
    (h : prefill_and_decode prefill_batch generate_token st (some batch) =
      .ok st2) :
    ∃ generations failed, prefill_batch batch = .ok (generations, failed) ∧
      st2 = { st with
        error_requests := failed,
        active_requests :=
          st.active_requests.map (processRequest generations) } := by
  cases hg : prefill_batch batch with
  | error e =>
    simp only [prefill_and_decode, hg, Bind.bind, Except.bind] at h
    exact absurd h (by simp)
  | ok p =>
    simp only [prefill_and_decode, hg, Bind.bind, Except.bind, pure,
      Except.pure, Except.ok.injEq] at h
    exact ⟨p.1, p.2, rfl, h.symm⟩

/-- C9: the error_requests field is assigned only on the prefill path of
_prefill_and_decode: a decode-only cycle (no new batch) that returns
normally leaves the field unchanged, a prefill cycle overwrites it with the
failed ids returned by the engine, and any number of successive decode-only
cycles preserves the value recorded by an earlier prefill. -/
theorem error_requests_frame
    (prefill_batch : Batch → Except String (List Generation × List Nat))
    (generate_token : Unit → Except String (List Generation))
    (st : AdapterState) :
    (∀ st2, prefill_and_decode prefill_batch generate_token st none =
        .ok st2 → st2.error_requests = st.error_requests) ∧
    (∀ batch generations failed st2,
      prefill_batch batch = .ok (generations, failed) →
      prefill_and_decode prefill_batch generate_token st (some batch) =
        .ok st2 →
      st2.error_requests = failed) ∧
    (∀ n st2, decodeCycles prefill_batch generate_token st n = .ok st2 →
      st2.error_requests = st.error_requests) := by
  have frame : ∀ st st2 : AdapterState,
      prefill_and_decode prefill_batch generate_token st none = .ok st2 →
      st2.error_requests = st.error_requests := by
    intro st st2 h
    obtain ⟨generations, -, rfl⟩ :=
      prefill_and_decode_none_ok prefill_batch generate_token st st2 h
    rfl
  refine ⟨fun st2 h => frame st st2 h, ?_, ?_⟩
  · intro batch generations failed st2 hp h
    obtain ⟨g2, f2, hp2, rfl⟩ :=
      prefill_and_decode_some_ok prefill_batch generate_token st st2 batch h
    rw [hp] at hp2
    injection hp2 with hp2
    injection hp2 with h1 h2
    rw [h2]
  · intro n
    induction n generalizing st with
    | zero =>
      intro st2 h
      injection h with h
      rw [h]
    | succ n ih =>
      intro st2 h
      simp only [decodeCycles] at h
      cases hd : prefill_and_decode prefill_batch generate_token st none with
      | error e =>
        rw [hd] at h
        simp only [Bind.bind, Except.bind] at h
        exact absurd h (by simp)
      | ok st3 =>
        rw [hd] at h
        simp only [Bind.bind, Except.bind] at h
        rw [ih st3 st2 h]
        exact frame st st3 hd

/-- Witness for C9: two decode-only cycles with an engine that succeeds
leave a previously recorded failed-request id list unchanged. -/
theorem error_requests_frame_witness :
    ({ batch_id_counter := 0, active_requests := [],
       error_requests := [42] } : AdapterState).error_requests = [42] :=
  (error_requests_frame (fun _ => Except.ok ([], [42]))
      (fun _ => Except.ok [])
      { batch_id_counter := 0, active_requests := [],
        error_requests := [42] }).2.2 2
    { batch_id_counter := 0, active_requests := [], error_requests := [42] }
    rfl

theorem processRequest_eq_set_next_token (generations : List Generation)
    (r : ActiveRequest) :
    ∃ t l, processRequest generations r = set_next_token r t l := by
  unfold processRequest
  cases h : (generations.filter fun g => g.request_id == r.id).head? with
  | none => simp only [h]; exact ⟨"", false, rfl⟩
  | some g => simp only [h]; exact ⟨_, _, rfl⟩

/-- C10: on every invocation of _prefill_and_decode that returns normally
— whatever the generation list returned by the engine, and whether or not
a new batch exists — the active-request collection keeps its length, the
updated collection is exactly the pointwise image of the old one under the
per-request token step, and the request at each position i receives
exactly one set_next_token call: the new entry at position i is
set_next_token applied to the old entry at position i. -/
theorem one_set_next_token_per_request
    (prefill_batch : Batch → Except String (List Generation × List Nat))
    (generate_token : Unit → Except String (List Generation))
    (st : AdapterState) (new_batch : Option Batch) (st2 : AdapterState)
    (h : prefill_and_decode prefill_batch generate_token st new_batch =
      .ok st2) :
    st2.active_requests.length = st.active_requests.length ∧
    (∃ generations, st2.active_requests =
      st.active_requests.map (processRequest generations)) ∧
    (∀ (i : Nat) (r : ActiveRequest), st.active_requests[i]? = some r →
      ∃ t l, st2.active_requests[i]? = some (set_next_token r t l)) := by
  have key : ∃ generations, st2.active_requests =
      st.active_requests.map (processRequest generations) := by
    cases new_batch with
    | none =>
      obtain ⟨generations, -, rfl⟩ :=
        prefill_and_decode_none_ok prefill_batch generate_token st st2 h
      exact ⟨generations, rfl⟩
    | some batch =>
      obtain ⟨generations, failed, -, rfl⟩ :=
        prefill_and_decode_some_ok prefill_batch generate_token st st2 batch h
      exact ⟨generations, rfl⟩
  obtain ⟨generations, hmap⟩ := key
  refine ⟨by rw [hmap, List.length_map], ⟨generations, hmap⟩, ?_⟩
  intro i r hr
  obtain ⟨t, l, ht⟩ := processRequest_eq_set_next_token generations r
  refine ⟨t, l, ?_⟩
  rw [hmap, List.getElem?_map, hr]
  simp [ht]

/-- Witness for C10: a decode cycle over two active requests, of which the
engine reports a token only for the first; both streams gain exactly one
token. -/
theorem one_set_next_token_per_request_witness :
    ({ batch_id_counter := 0,
       active_requests := [{ id := 1, tokens := [("a", false)] },
                           { id := 2, tokens := [("", false)] }],
       error_requests := [] } : AdapterState).active_requests.length =
      ({ batch_id_counter := 0,
         active_requests := [{ id := 1 }, { id := 2 }],
         error_requests := [] } : AdapterState).active_requests.length :=
  (one_set_next_token_per_request
    (fun _ => Except.error "unused")
    (fun _ => Except.ok [{ request_id := 1, token_text := "a",
                           token_is_special := false,
                           generated_text := none }])
    { batch_id_counter := 0,
      active_requests := [{ id := 1 }, { id := 2 }], error_requests := [] }
    none
    { batch_id_counter := 0,
      active_requests := [{ id := 1, tokens := [("a", false)] },
                          { id := 2, tokens := [("", false)] }],
      error_requests := [] }
    rfl).1

/-- C2: when any step of the inference body raises, the wrapping
stop_on_any_exception decorator intercepts the exception — the decorated
inference is a total function, so the exception cannot propagate out of
it — and every currently active request, including requests unrelated to
the failing batch, is transitioned to the terminal error state. -/
theorem exception_marks_all_requests_errored
    (prefill_batch : Batch → Except String (List Generation × List Nat))
    (generate_token : Unit → Except String (List Generation))
    (new_requests : List IncomingRequest) (st : AdapterState) (e : String)
    (h : inference_body prefill_batch generate_token new_requests st =
      .error e) :
    inference prefill_batch generate_token new_requests st =
      { st with active_requests :=
          st.active_requests.map fun r => { r with errored := true } } ∧
    ∀ r ∈ (inference prefill_batch generate_token new_requests
        st).active_requests, r.errored = true := by
  have h1 : inference prefill_batch generate_token new_requests st =
      { st with active_requests :=
          st.active_requests.map fun r => { r with errored := true } } := by
    unfold inference stop_on_any_exception
    rw [h]
  refine ⟨h1, ?_⟩
  rw [h1]
  intro r hr
  simp only [List.mem_map] at hr
  obtain ⟨r0, -, rfl⟩ := hr
  rfl

/-- Witness for C2: the engine prefill raises on a batch created for
request 1 while request 2, unrelated to that batch, is active; both end up
in the error state and inference returns normally. -/
theorem exception_marks_all_requests_errored_witness :
    inference (fun _ => Except.error "boom") (fun _ => Except.error "boom")
      [{ id := 1, input_text := "hi", parameters := {} }]
      { batch_id_counter := 0,
        active_requests := [{ id := 1 }, { id := 2 }],
        error_requests := [] } =
      { batch_id_counter := 0,
        active_requests := [{ id := 1, errored := true },
                            { id := 2, errored := true }],
        error_requests := [] } :=
  (exception_marks_all_requests_errored
    (fun _ => Except.error "boom") (fun _ => Except.error "boom")
    [{ id := 1, input_text := "hi", parameters := {} }]
    { batch_id_counter := 0,
      active_requests := [{ id := 1 }, { id := 2 }],
      error_requests := [] } "boom" rfl).1

end DSRB
